import Mathlib

/-
Verification of the no-sleep wake-lock library (src/lib/main.ts).

The development shallowly embeds the library: the load-time strategy
selector (`shouldUseNative`, the default-export choice), the version
comparator (`getIOSVersion`, `isVersionGTE`), and the three strategy
classes (`NoSleepSSR`, `NoSleepNative`, `NoSleepVideo`) as pure state
transformers.  Platform effects (the wake-lock grant, video playback
start, `Math.random()`, event dispatch) are injected as explicit
arguments, and thrown JavaScript errors are modelled with `Except`.
-/

namespace NoSleep

/-- JavaScript `Error` values: a `name` and a `message` (the code only
ever reads these two fields, in the `catch` blocks). -/
structure JsError where
  name : String
  message : String
deriving DecidableEq, Repr

/-- Console log levels used by the library (`console.debug` / `console.error`). -/
inductive LogLevel
  | debug
  | error
deriving DecidableEq, Repr

/-- One console message emitted by the library. -/
structure LogMsg where
  level : LogLevel
  message : String
deriving DecidableEq, Repr

/-- The log line produced by the shared catch blocks:
`console.error(`${err.name}, ${err.message}`)`. -/
def errorLog (e : JsError) : LogMsg :=
  { level := LogLevel.error, message := e.name ++ ", " ++ e.message }

/-! ## Version comparator (src/lib/main.ts lines 120-129) -/

/-- `type Version = [major: number, minor: number]` (both components are
produced by `Number` on digit strings, hence naturals). -/
abbrev Version : Type := Nat × Nat

/-- Decides whether the pattern `p` is an initial segment of `s`
(character-by-character comparison, as a JS regex literal does). -/
def leadsWith : List Char → List Char → Bool
  | [], _ => true
  | _ :: _, [] => false
  | p :: ps, c :: cs => p == c && leadsWith ps cs

/-- Decides whether `p` occurs contiguously anywhere in `s`; this is the
semantics of `/pat/.test(s)` for a literal pattern `pat`. -/
def occursIn (p : List Char) : List Char → Bool
  | [] => leadsWith p []
  | c :: cs => leadsWith p (c :: cs) || occursIn p cs

/-- `Number` applied to a nonempty digit string (the regex captures
`(\d+)` only ever hold decimal digits). -/
def digitsToNat (l : List Char) : Nat :=
  l.foldl (fun n c => 10 * n + (c.toNat - 48)) 0

/-- Attempts the pattern `OS (\d+)_(\d+)` anchored at the head of `l`.
The `\d+` captures are greedy maximal digit runs; because a shortened
run would be followed by another digit rather than `_`, backtracking
inside a digit run can never succeed, so matching the maximal run is
exact. -/
def matchOSVersionAt (l : List Char) : Option Version :=
  match l with
  | 'O' :: 'S' :: ' ' :: rest =>
    let d1 := rest.takeWhile Char.isDigit
    if d1.isEmpty then none
    else
      match rest.dropWhile Char.isDigit with
      | '_' :: rest2 =>
        let d2 := rest2.takeWhile Char.isDigit
        if d2.isEmpty then none else some (digitsToNat d1, digitsToNat d2)
      | _ => none
  | _ => none

/-- Leftmost match of `/OS (\d+)_(\d+)/`: JS `String.match` scans start
positions left to right and returns the first successful match. -/
def findOSVersion : List Char → Option Version
  | [] => none
  | c :: cs =>
    match matchOSVersionAt (c :: cs) with
    | some v => some v
    | none => findOSVersion cs

/-- `getIOSVersion` (lines 121-125): returns `null` unless the user
agent mentions iPod, iPhone or iPad, then extracts the `OS major_minor`
pair if present. -/
def getIOSVersion (userAgent : String) : Option Version :=
  if !(occursIn "iPod".toList userAgent.toList
       || occursIn "iPhone".toList userAgent.toList
       || occursIn "iPad".toList userAgent.toList) then none
  else findOSVersion userAgent.toList

/-- `isVersionGTE` (lines 127-129): `a[0] > b[0] || (a[0] === b[0] && a[1] >= b[1])`. -/
def isVersionGTE (a b : Version) : Bool :=
  decide (a.1 > b.1) || (a.1 == b.1 && decide (a.2 ≥ b.2))

/-! ## Environment model and strategy selector (lines 131-150) -/

/-- The parts of the browser `navigator` object the selector reads:
whether `'wakeLock' in navigator`, the `userAgent` string, and the
truthiness of the non-standard `navigator.standalone`. -/
structure NavigatorEnv where
  hasWakeLock : Bool
  userAgent : String
  standalone : Bool
deriving DecidableEq, Repr

/-- The host environment: `navigator = none` models
`typeof navigator === 'undefined'` (no document/window, e.g. SSR). -/
structure Env where
  navigator : Option NavigatorEnv
deriving DecidableEq, Repr

/-- The three strategy variants the load-time selector can pick. -/
inductive Strategy
  | Unsupported
  | NativeLock
  | VideoLoop
deriving DecidableEq, Repr

/-- `shouldUseNative` (lines 132-141): requires the native Wake Lock
API; on iOS versions whose user agent parses, avoids the native lock in
standalone (PWA) mode below iOS 18.4. -/
def shouldUseNative (nav : NavigatorEnv) : Bool :=
  if !nav.hasWakeLock then false
  else
    match getIOSVersion nav.userAgent with
    | none => true
    | some v => !nav.standalone || isVersionGTE v (18, 4)

/-- The default-export choice (lines 143-148): `NoSleepSSR` when
`navigator` is undefined, else `NoSleepNative` or `NoSleepVideo`
according to `shouldUseNative`. -/
def selectStrategy (env : Env) : Strategy :=
  match env.navigator with
  | none => Strategy.Unsupported
  | some nav =>
    if shouldUseNative nav then Strategy.NativeLock else Strategy.VideoLoop

/-- Concrete iPhone user agent reporting iOS 17.0. -/
def ua17 : String := "Mozilla/5.0 (iPhone; CPU iPhone OS 17_0 like Mac OS X)"

/-- Concrete iPhone user agent reporting iOS 18.4. -/
def ua184 : String := "Mozilla/5.0 (iPhone; CPU iPhone OS 18_4 like Mac OS X)"

/-! ## NoSleepSSR (lines 9-17): the no-op / unsupported strategy -/

/-- Instance state of `NoSleepSSR`: just the `enabled` field. -/
structure SSRState where
  enabled : Bool
deriving DecidableEq, Repr

/-- Field initializer `enabled = false`. -/
def SSRState.init : SSRState :=
  { enabled := false }

/-- The thrown value of `NoSleepSSR.enable`:
`new Error('NoSleep using SSR/no-op mode; do not call enable.')`. -/
def ssrEnableError : JsError :=
  { name := "Error", message := "NoSleep using SSR/no-op mode; do not call enable." }

/-- The thrown value of `NoSleepSSR.disable`. -/
def ssrDisableError : JsError :=
  { name := "Error", message := "NoSleep using SSR/no-op mode; do not call disable." }

/-- `NoSleepSSR.enable` (lines 11-13): throws unconditionally, before
touching any state, so no successor state is ever produced. -/
def ssrEnable (_s : SSRState) : Except JsError SSRState :=
  Except.error ssrEnableError

/-- `NoSleepSSR.disable` (lines 14-16): throws unconditionally. -/
def ssrDisable (_s : SSRState) : Except JsError SSRState :=
  Except.error ssrDisableError

/-! ## NoSleepNative (lines 19-52): the native wake-lock strategy

Wake-lock handles are identified by a `Nat` tag; the platform outcome of
`navigator.wakeLock.request('screen')` is injected as an
`Except JsError Nat` argument (per the Wake Lock specification a
rejected request throws a `DOMException`, an `Error` instance, so the
`err instanceof Error` guard in the catch block always holds). -/

/-- Instance state of `NoSleepNative`: the `enabled` flag and the
optional stored `wakeLock` sentinel. -/
structure NativeState where
  enabled : Bool
  wakeLock : Option Nat
deriving DecidableEq, Repr

/-- Field initializers: `enabled = false`, no sentinel stored. -/
def NativeState.init : NativeState :=
  { enabled := false, wakeLock := none }

/-- `NoSleepNative.enable` (lines 30-45), given the platform outcome of
the awaited request.  On success: store the sentinel, set
`enabled = true`, log `Wake Lock active.` (the attached release listener
is `nativeReleaseListener` below).  On failure the catch block sets
`enabled = false` and logs; the sentinel field is untouched because the
assignment never ran. -/
def nativeEnable (s : NativeState) (req : Except JsError Nat) :
    NativeState × List LogMsg :=
  match req with
  | Except.ok h =>
    ({ enabled := true, wakeLock := some h },
     [{ level := LogLevel.debug, message := "Wake Lock active." }])
  | Except.error e =>
    ({ s with enabled := false }, [errorLog e])

/-- `enable` as observed by the caller: the try/catch swallows the
platform error, so the async call always resolves. -/
def nativeEnableRun (s : NativeState) (req : Except JsError Nat) :
    Except JsError (NativeState × List LogMsg) :=
  Except.ok (nativeEnable s req)

/-- The `release` listener attached on lines 35-40: it only logs
`Wake Lock released.` and performs no state update. -/
def nativeReleaseListener (s : NativeState) : NativeState × List LogMsg :=
  (s, [{ level := LogLevel.debug, message := "Wake Lock released." }])

/-- `NoSleepNative.disable` (lines 47-51): release the held sentinel (a
platform effect), clear the stored reference, clear `enabled`.
Synchronous and total: no statement in its body can throw. -/
def nativeDisable (_s : NativeState) : NativeState :=
  { enabled := false, wakeLock := none }

/-- Completed operations on a `NoSleepNative` instance, for the
staleness analysis of the `enabled` flag.  `enableOk h` / `enableFail e`
are an `enable()` call resolving after the platform granted sentinel `h`
or threw `e`; `platformRelease` is an unsolicited release event fired by
the platform on a held lock. -/
inductive NativeEvent
  | enableOk (h : Nat)
  | enableFail (e : JsError)
  | disable
  | platformRelease
deriving DecidableEq, Repr

/-- Instance state per the code, paired with the ground truth of the
platform: `platformHeld` records whether the platform currently holds a
screen wake lock on the instance's behalf.  It is ghost state, driven by
the Wake Lock lifecycle: a granted request holds, an explicit release or
an unsolicited platform release ends the hold, a failed request grants
nothing (and does not release a previously granted lock). -/
structure NativeWorld where
  state : NativeState
  platformHeld : Bool
deriving DecidableEq, Repr

/-- One completed operation: the code's transition on the instance
state (from `nativeEnable` / `nativeDisable` / `nativeReleaseListener`)
paired with the platform's transition on the ghost flag. -/
def nativeStep (w : NativeWorld) : NativeEvent → NativeWorld
  | NativeEvent.enableOk h =>
    { state := (nativeEnable w.state (Except.ok h)).1, platformHeld := true }
  | NativeEvent.enableFail e =>
    { state := (nativeEnable w.state (Except.error e)).1,
      platformHeld := w.platformHeld }
  | NativeEvent.disable =>
    { state := nativeDisable w.state, platformHeld := false }
  | NativeEvent.platformRelease =>
    { state := (nativeReleaseListener w.state).1, platformHeld := false }

/-- A freshly constructed instance holds no lock. -/
def NativeWorld.init : NativeWorld :=
  { state := NativeState.init, platformHeld := false }

/-- Run a sequence of completed operations from construction. -/
def nativeRun (evs : List NativeEvent) : NativeWorld :=
  evs.foldl nativeStep NativeWorld.init

/-! ## NoSleepVideo (lines 54-118): the video-loop strategy

Media times (`duration`, `currentTime`, `Math.random()`) are modelled
as rationals.  The embedded payloads from `src/lib/media.ts` are not
under `src/`; they are opaque base64 data URIs consumed as-is, so they
appear here as opaque string constants (no claim depends on their
contents). -/

/-- Opaque stand-in for the `webm` data URI exported by `src/lib/media.ts`. -/
def webm : String := "data:video/webm;base64,opaque-webm-payload"

/-- Opaque stand-in for the `mp4` data URI exported by `src/lib/media.ts`. -/
def mp4 : String := "data:video/mp4;base64,opaque-mp4-payload"

/-- A `<source>` child element: its `src` and `type` attributes. -/
structure SourceElem where
  src : String
  mediaType : String
deriving DecidableEq, Repr

/-- The `<video>` element owned by a `NoSleepVideo` instance: the
attributes and children the constructor and handlers touch. -/
structure VideoElem where
  title : Option String
  playsinline : Bool
  loopAttr : Bool
  sources : List SourceElem
  styledOffscreen : Bool
deriving DecidableEq, Repr

/-- A fresh element from `document.createElement('video')`: no
attributes, no children. -/
def VideoElem.fresh : VideoElem :=
  { title := none, playsinline := false, loopAttr := false,
    sources := [], styledOffscreen := false }

/-- Instance state of `NoSleepVideo`, together with the document-side
facts the claims are about: whether the element was appended to the
body, which handlers are registered, the element's playback position and
paused flag, and the tag names passed to `document.createElement`. -/
structure VideoState where
  enabled : Bool
  video : VideoElem
  attachedToBody : Bool
  metadataHandlerRegistered : Bool
  timeupdateHandlerRegistered : Bool
  currentTime : ℚ
  paused : Bool
  createElementCalls : List String
deriving DecidableEq, Repr

/-- `_addSourceToVideo` (lines 91-100): create a `<source>`, set
`src = dataURI` and `type = 'video/' + type`, append it as a child. -/
def addSourceToVideo (v : VideoElem) (typeName : String) (dataURI : String) :
    VideoElem :=
  { v with sources := v.sources ++ [{ src := dataURI, mediaType := "video/" ++ typeName }] }

/-- The `NoSleepVideo` constructor (lines 58-89).  `hasBody` is whether
`document.querySelector('body')` finds an element; the `?.` optional
chaining makes the append conditional and the constructor total either
way.  `createElementCalls` records one `'video'` (line 60) and one
`'source'` per `_addSourceToVideo` call (line 96, called twice). -/
def videoInit (hasBody : Bool) : VideoState :=
  let v0 := VideoElem.fresh
  let v1 := { v0 with title := some "No Sleep" }
  let v2 := { v1 with playsinline := true }
  let v3 := addSourceToVideo v2 "webm" webm
  let v4 := addSourceToVideo v3 "mp4" mp4
  let v5 := { v4 with styledOffscreen := true }
  { enabled := false
    video := v5
    attachedToBody := hasBody
    metadataHandlerRegistered := true
    timeupdateHandlerRegistered := false
    currentTime := 0
    paused := true
    createElementCalls := ["video", "source", "source"] }

/-- The `loadedmetadata` handler (lines 76-88), reading the clip
duration reported by the platform: a short clip (`duration <= 1`) gets
the `loop` attribute; a longer clip gets the `timeupdate` handler
registered instead. -/
def onLoadedMetadata (s : VideoState) (duration : ℚ) : VideoState :=
  if duration ≤ 1 then
    { s with video := { s.video with loopAttr := true } }
  else
    { s with timeupdateHandlerRegistered := true }

/-- The `timeupdate` handler (lines 82-86), with the value of
`Math.random()` injected: past the 0.5 mark, playback is repositioned
to the random point. -/
def onTimeUpdate (s : VideoState) (rnd : ℚ) : VideoState :=
  if s.currentTime > 0.5 then { s with currentTime := rnd } else s

/-- `NoSleepVideo.enable` (lines 102-112), given the platform outcome of
the awaited `play()` promise.  On success playback is running and
`enabled = true`; the catch block sets `enabled = false` and logs (a
rejected `play()` leaves the element paused). -/
def videoEnable (s : VideoState) (play : Except JsError Unit) :
    VideoState × List LogMsg :=
  match play with
  | Except.ok _ => ({ s with enabled := true, paused := false }, [])
  | Except.error e => ({ s with enabled := false }, [errorLog e])

/-- `enable` as observed by the caller: the try/catch swallows the
rejection, so the async call always resolves. -/
def videoEnableRun (s : VideoState) (play : Except JsError Unit) :
    Except JsError (VideoState × List LogMsg) :=
  Except.ok (videoEnable s play)

/-- `NoSleepVideo.disable` (lines 114-117): pause and clear `enabled`. -/
def videoDisable (s : VideoState) : VideoState :=
  { s with paused := true, enabled := false }

/-! ## Theorems -/

/-- An environment with the native capability, an iOS 17.0 user agent,
and standalone (PWA) display mode. -/
def nav17 : NavigatorEnv :=
  { hasWakeLock := true, userAgent := ua17, standalone := true }

/-- Same environment but reporting iOS 18.4. -/
def nav184 : NavigatorEnv :=
  { hasWakeLock := true, userAgent := ua184, standalone := true }

/-- The selector picks `NativeLock` exactly when `shouldUseNative` holds. -/
theorem selectStrategy_native_iff (nav : NavigatorEnv) :
    selectStrategy { navigator := some nav } = Strategy.NativeLock ↔
      shouldUseNative nav = true := by
  cases hb : shouldUseNative nav <;> simp [selectStrategy, hb]

/-- C1: with the native wake-lock capability present and a user agent
that parses to an iOS version, the selector chooses `NativeLock` exactly
when the environment is not in standalone display mode or the version is
at least (18, 4), and `VideoLoop` otherwise; in particular version
(17, 0) with standalone gives `VideoLoop` and (18, 4) with standalone
gives `NativeLock`. -/
theorem C1_native_selection :
    (∀ (nav : NavigatorEnv) (v : Version), nav.hasWakeLock = true →
      getIOSVersion nav.userAgent = some v →
      (selectStrategy { navigator := some nav } = Strategy.NativeLock ↔
        (nav.standalone = false ∨ isVersionGTE v (18, 4) = true)))
    ∧ selectStrategy { navigator := some nav17 } = Strategy.VideoLoop
    ∧ selectStrategy { navigator := some nav184 } = Strategy.NativeLock := by
  refine ⟨?_, by decide, by decide⟩
  intro nav v hw hv
  rw [selectStrategy_native_iff]
  simp [shouldUseNative, hw, hv, Bool.or_eq_true, Bool.not_eq_true']

/-- Witness for C1 at the concrete iOS 17.0 standalone environment. -/
theorem C1_native_selection_witness :
    selectStrategy { navigator := some nav17 } = Strategy.NativeLock ↔
      (nav17.standalone = false ∨ isVersionGTE (17, 0) (18, 4) = true) :=
  C1_native_selection.1 nav17 (17, 0) rfl (by decide)

/-- C2: when no navigator (document/window) object is present, the
selector chooses `Unsupported`, whatever the other inputs would be. -/
theorem C2_unsupported_when_no_navigator (env : Env)
    (h : env.navigator = none) : selectStrategy env = Strategy.Unsupported := by
  simp [selectStrategy, h]

/-- Witness for C2 at the empty environment. -/
theorem C2_unsupported_when_no_navigator_witness :
    selectStrategy { navigator := none } = Strategy.Unsupported :=
  C2_unsupported_when_no_navigator { navigator := none } rfl

/-- C3 counterexample: after a successful `enable()` followed by an
unsolicited platform release event, the platform no longer holds the
lock, yet `enabled` is still `true` — the release listener only logs, so
the flag is left stale, contradicting the claim that `enabled` is
up-to-date after every completed operation including external releases. -/
theorem C3_stale_after_platform_release :
    (nativeRun [NativeEvent.enableOk 0, NativeEvent.platformRelease]).state.enabled
        = true
    ∧ (nativeRun [NativeEvent.enableOk 0, NativeEvent.platformRelease]).platformHeld
        = false :=
  ⟨rfl, rfl⟩

/-- C3 (amended): `enabled` reflects the outcome of the last explicit
`enable`/`disable` call; an externally triggered platform release event
leaves the instance state (both `enabled` and the stored sentinel)
completely unchanged, so the flag can remain a stale `true`. -/
theorem C3_enabled_tracks_calls_only :
    ∀ (w : NativeWorld) (h : Nat) (e : JsError),
      (nativeStep w (NativeEvent.enableOk h)).state.enabled = true
      ∧ (nativeStep w (NativeEvent.enableFail e)).state.enabled = false
      ∧ (nativeStep w NativeEvent.disable).state.enabled = false
      ∧ (nativeStep w NativeEvent.platformRelease).state = w.state :=
  fun _ _ _ => ⟨rfl, rfl, rfl, rfl⟩

/-- C4: on the unsupported (SSR) strategy, `enabled` is `false` at
construction, and both operations throw their mode error without ever
producing a successor state, so `enabled` is never changed. -/
theorem C4_ssr_always_throws :
    SSRState.init.enabled = false
    ∧ (∀ s : SSRState, ssrEnable s = Except.error ssrEnableError)
    ∧ (∀ s : SSRState, ssrDisable s = Except.error ssrDisableError) :=
  ⟨rfl, fun _ => rfl, fun _ => rfl⟩

/-- C5: on both the native and the video strategy, a platform failure
inside `enable()` resolves (never rejects to the caller), with `enabled`
set to `false`, every other field unchanged, and the error logged. -/
theorem C5_enable_failure_swallowed :
    (∀ (s : NativeState) (e : JsError),
      nativeEnableRun s (Except.error e) =
        Except.ok ({ s with enabled := false }, [errorLog e]))
    ∧ (∀ (s : VideoState) (e : JsError),
      videoEnableRun s (Except.error e) =
        Except.ok ({ s with enabled := false }, [errorLog e])) :=
  ⟨fun _ _ => rfl, fun _ _ => rfl⟩

/-- C6: `NoSleepNative.disable` (a total, synchronous function) clears
the sentinel and the flag from any state, and applying it twice gives
the same state as applying it once. -/
theorem C6_native_disable_idempotent :
    ∀ s : NativeState,
      (nativeDisable s).enabled = false
      ∧ (nativeDisable s).wakeLock = none
      ∧ nativeDisable (nativeDisable s) = nativeDisable s :=
  fun _ => ⟨rfl, rfl, rfl⟩

/-- C7 counterexample: with playback at position 3/5 (past the 0.5
mark) and `Math.random()` returning 9/10, the handler repositions to
9/10, which is greater than 3/5 — the jump is forward, not backward. -/
theorem C7_forward_jump :
    (0.5 : ℚ) < 3 / 5
    ∧ (0 : ℚ) ≤ 9 / 10 ∧ (9 : ℚ) / 10 < 1
    ∧ (onTimeUpdate { videoInit true with currentTime := 3 / 5 } (9 / 10)).currentTime
        = 9 / 10
    ∧ ¬ (onTimeUpdate { videoInit true with currentTime := 3 / 5 } (9 / 10)).currentTime
        < 3 / 5 := by
  refine ⟨by norm_num, by norm_num, by norm_num, ?_, ?_⟩
  · rw [onTimeUpdate, if_pos (by norm_num)]
  · rw [onTimeUpdate, if_pos (by norm_num)]
    norm_num

/-- C7 (amended): the metadata handler enables native looping when the
duration is at most 1 and otherwise registers the playback-position
handler; that handler, given `Math.random()` in [0, 1), repositions
playback to the random point — in [0, 1) but not necessarily backward —
whenever the position exceeds 0.5, and otherwise does nothing. -/
theorem C7_metadata_branch_and_timeupdate (s : VideoState) (d rnd : ℚ)
    (h0 : 0 ≤ rnd) (h1 : rnd < 1) :
    (d ≤ 1 → onLoadedMetadata s d = { s with video := { s.video with loopAttr := true } })
    ∧ (1 < d → onLoadedMetadata s d = { s with timeupdateHandlerRegistered := true })
    ∧ (0.5 < s.currentTime →
        (onTimeUpdate s rnd).currentTime = rnd
        ∧ 0 ≤ (onTimeUpdate s rnd).currentTime
        ∧ (onTimeUpdate s rnd).currentTime < 1)
    ∧ (¬ 0.5 < s.currentTime → onTimeUpdate s rnd = s) := by
  refine ⟨fun hd => ?_, fun hd => ?_, fun hc => ?_, fun hc => ?_⟩
  · rw [onLoadedMetadata, if_pos hd]
  · rw [onLoadedMetadata, if_neg (not_le.mpr hd)]
  · rw [onTimeUpdate, if_pos hc]
    exact ⟨rfl, h0, h1⟩
  · rw [onTimeUpdate, if_neg hc]

/-- Witness for the amended C7 on a long clip with the position past the
threshold and a random value of 1/4. -/
theorem C7_metadata_branch_and_timeupdate_witness :
    ((2 : ℚ) ≤ 1 →
      onLoadedMetadata { videoInit true with currentTime := 3 / 4 } 2 =
        { { videoInit true with currentTime := 3 / 4 } with
            video := { { videoInit true with currentTime := 3 / 4 }.video with
              loopAttr := true } })
    ∧ ((1 : ℚ) < 2 →
      onLoadedMetadata { videoInit true with currentTime := 3 / 4 } 2 =
        { { videoInit true with currentTime := 3 / 4 } with
            timeupdateHandlerRegistered := true })
    ∧ ((0.5 : ℚ) < { videoInit true with currentTime := (3 : ℚ) / 4 }.currentTime →
      (onTimeUpdate { videoInit true with currentTime := 3 / 4 } (1 / 4)).currentTime
          = 1 / 4
      ∧ 0 ≤ (onTimeUpdate { videoInit true with currentTime := 3 / 4 } (1 / 4)).currentTime
      ∧ (onTimeUpdate { videoInit true with currentTime := 3 / 4 } (1 / 4)).currentTime < 1)
    ∧ (¬ (0.5 : ℚ) < { videoInit true with currentTime := (3 : ℚ) / 4 }.currentTime →
      onTimeUpdate { videoInit true with currentTime := 3 / 4 } (1 / 4) =
        { videoInit true with currentTime := 3 / 4 }) :=
  C7_metadata_branch_and_timeupdate
    { videoInit true with currentTime := 3 / 4 } 2 (1 / 4)
    (by norm_num) (by norm_num)

/-- C8: constructing the video strategy in a document with a body
creates exactly one media element, appends it to the body, and gives it
exactly the two source children, whose type identifiers are the two
distinct container formats. -/
theorem C8_video_construction :
    (videoInit true).createElementCalls.count "video" = 1
    ∧ (videoInit true).attachedToBody = true
    ∧ (videoInit true).video.sources.map SourceElem.mediaType =
        ["video/webm", "video/mp4"]
    ∧ ("video/webm" : String) ≠ "video/mp4" := by
  refine ⟨by decide, rfl, rfl, by decide⟩

/-- C10: constructing the video strategy in a document without a body is
total (the optional chaining skips the append rather than throwing): the
element is still created once, with both sources and its attributes, and
stored on the instance, but it is attached nowhere. -/
theorem C10_construction_without_body :
    (videoInit false).attachedToBody = false
    ∧ (videoInit false).createElementCalls.count "video" = 1
    ∧ (videoInit false).video.sources.map SourceElem.mediaType =
        ["video/webm", "video/mp4"]
    ∧ (videoInit false).video.title = some "No Sleep" := by
  refine ⟨rfl, by decide, rfl, rfl⟩

/-- C9: `isVersionGTE` is the lexicographic at-least test on
(major, minor) pairs: it holds exactly when the major is greater, or the
majors agree and the minor is at least as large; hence it is reflexive,
accepts a minor bump on the left, and rejects one on the right. -/
theorem C9_isVersionGTE_lex :
    (∀ a b : Version,
      isVersionGTE a b = true ↔ (b.1 < a.1 ∨ (a.1 = b.1 ∧ b.2 ≤ a.2)))
    ∧ (∀ m n : Nat, isVersionGTE (m, n) (m, n) = true)
    ∧ (∀ m n : Nat, isVersionGTE (m, n + 1) (m, n) = true)
    ∧ (∀ m n : Nat, isVersionGTE (m, n) (m, n + 1) = false) := by
  refine ⟨fun a b => ?_, fun m n => ?_, fun m n => ?_, fun m n => ?_⟩ <;>
    simp [isVersionGTE]

end NoSleep
